import Mathlib

/-!
Verification of the event-driven finite-state-machine engine in
`StateModel.py` (class `StateModel`).

The engine is embedded shallowly: its mutable attributes become the fields
of a `StateModel` structure, each Python method becomes a Lean function
from a model to an updated model, and each handler callback or adapter
operation that the method performs is recorded, in order, in a trace of
`Act` values.  Python exceptions are modelled with an `Option PyErr`
component; since a raised exception leaves any mutations already performed
in place, fallible methods return the (possibly partially mutated) model
together with the optional error.  Python list indexing, which accepts
negative indices counting from the end, is modelled by `pyIdx`.
-/

namespace StateModelVerif

/-- The Python exceptions the engine can raise: `ValueError` (with its
message), `TypeError` (iterating over `None`), `IndexError`. -/
inductive PyErr where
  | valueError (msg : String)
  | typeError
  | indexError
deriving DecidableEq, Repr

/-- A button adapter: owns a name; `hasHandler` records whether its
delivery reference (`setHandler`) currently points at the engine. -/
structure ButtonAdapter where
  name : String
  hasHandler : Bool
deriving DecidableEq, Repr

/-- A timer adapter: owns a name; `hasHandler` records the delivery
reference, `pending` whether an expiration is pending (`cancel` clears it). -/
structure TimerAdapter where
  name : String
  hasHandler : Bool
  pending : Bool
deriving DecidableEq, Repr

/-- One observable action performed by an engine method, in program order:
the three handler callbacks, the mutation of `_curState`, and the adapter
detach operations done by `stop`. -/
inductive Act where
  | callLeft (s : Int) (e : String)
  | callEntered (s : Int) (e : String)
  | callEvent (s : Int) (e : String)
  | setCur (s : Int)
  | clearButtonHandler (n : String)
  | clearTimerHandler (n : String)
  | cancelTimer (n : String)
deriving DecidableEq, Repr

/-- The mutable attributes of a `StateModel` instance
(`StateModel.__init__`, src/StateModel.py lines 74-84). -/
structure StateModel where
  numstates : Int
  running : Bool
  transitions : List (Option (List (String × Int)))
  curState : Int
  debug : Bool
  events : List String
  buttons : List ButtonAdapter
  timers : List TimerAdapter
deriving DecidableEq, Repr

/-- `StateModel.__init__(numstates, handler, debug)`: one `None` row per
state, current state `-1`, registry seeded with `no_event`. -/
def initModel (numstates : Nat) (debug : Bool) : StateModel :=
  { numstates := numstates
    running := false
    transitions := List.replicate numstates none
    curState := -1
    debug := debug
    events := [("no_event")]
    buttons := []
    timers := [] }

/-- Result of a fallible engine method: the model after the call (Python
leaves partial mutations in place when an exception propagates), the trace
of actions performed, and the exception if one was raised. -/
structure PyResult where
  model : StateModel
  trace : List Act
  err : Option PyErr
deriving DecidableEq, Repr

/-- Python list index resolution: a negative index counts from the end;
`none` means `IndexError`. -/
def pyIdx (len : Nat) (i : Int) : Option Nat :=
  if 0 ≤ i then
    if i < (len : Int) then some i.toNat else none
  else
    if 0 ≤ i + (len : Int) then some (i + (len : Int)).toNat else none

/-- Python `l[i]` (read). -/
def pyGet {α : Type} (l : List α) (i : Int) : Option α :=
  match pyIdx l.length i with
  | some j => l.get? j
  | none => none

/-- Python `l[i] = v` (write); `none` means `IndexError`. -/
def pySet {α : Type} (l : List α) (i : Int) (v : α) : Option (List α) :=
  match pyIdx l.length i with
  | some j => some (l.set j v)
  | none => none

/-- The loop body of `StateModel.getTransition` (lines 139-142): first
entry of the row whose event name matches, else the sentinel `-1`. -/
def firstMatch : List (String × Int) → String → Int
  | [], _ => -1
  | (e, s) :: rest, event => if e = event then s else firstMatch rest event

/-- `StateModel.getTransition(fromState, event)` (lines 134-142).
`for (e,s) in self._transitions[fromState]` raises `TypeError` when the
row is still the initializer `None`, and `IndexError` when `fromState` is
out of Python's index range. -/
def getTransition (m : StateModel) (fromState : Int) (event : String) :
    Except PyErr Int :=
  match pyGet m.transitions fromState with
  | none => .error .indexError
  | some none => .error .typeError
  | some (some row) => .ok (firstMatch row event)

/-- `StateModel.gotoState(newState, event)` (lines 168-180): when
`newState < self._numstates`, call `stateLeft` with the old current state,
assign `_curState`, then call `stateEntered` with the new one; otherwise
do nothing at all. -/
def gotoState (m : StateModel) (newState : Int) (event : String) :
    StateModel × List Act :=
  if newState < m.numstates then
    ({ m with curState := newState },
     [Act.callLeft m.curState event, Act.setCur newState,
      Act.callEntered newState event])
  else (m, [])

/-- `StateModel.processEvent(event)` (lines 182-207): unregistered events
raise `ValueError`; a found transition (target `≥ 0`) goes through
`gotoState`; otherwise `stateEvent` is called only under `if self._debug:`
and only for events other than `no_event`. -/
def processEvent (m : StateModel) (event : String) : PyResult :=
  if event ∈ m.events then
    match getTransition m m.curState event with
    | .error exc => ⟨m, [], some exc⟩
    | .ok newstate =>
      if 0 ≤ newstate then
        match gotoState m newstate event with
        | (m2, tr) => ⟨m2, tr, none⟩
      else
        if m.debug then
          if event ≠ ("no_event") then ⟨m, [Act.callEvent m.curState event], none⟩
          else ⟨m, [], none⟩
        else ⟨m, [], none⟩
  else ⟨m, [], some (.valueError (("Invalid event ") ++ event))⟩

/-- `StateModel.addTransition(fromState, events, toState)` (lines 86-100):
for each name in order, raise `ValueError` if unregistered (leaving
mutations from earlier names in place), else append `(name, toState)` to
the row, replacing a falsy row (`None` or `[]`) by a fresh list first. -/
def addTransition (m : StateModel) (fromState : Int) (evs : List String)
    (toState : Int) : PyResult :=
  match evs with
  | [] => ⟨m, [], none⟩
  | e :: rest =>
    if e ∈ m.events then
      match pyGet m.transitions fromState with
      | none => ⟨m, [], some .indexError⟩
      | some row =>
        match pySet m.transitions fromState
            (some (row.getD [] ++ [(e, toState)])) with
        | none => ⟨m, [], some .indexError⟩
        | some ts => addTransition { m with transitions := ts } fromState rest toState
    else ⟨m, [], some (.valueError (("Invalid event ") ++ e))⟩

/-- First event name in the table (row-major, Python's loop order) that is
not in the registry. -/
def firstInvalidEvent (m : StateModel) (ts : List (List (String × Int))) :
    Option String :=
  ((ts.flatMap id).find? (fun p => !(decide (p.1 ∈ m.events)))).map (fun p => p.1)

/-- `StateModel.setTransitionTable(transitions)` (lines 102-132): a row
count differing from `_numstates` is NOT an error — `_numstates` is
reassigned to the row count and an error is merely logged; afterwards the
event names are validated (raising `ValueError` at the first unknown one,
with `_numstates` left reassigned) and only then is the table installed. -/
def setTransitionTable (m : StateModel) (ts : List (List (String × Int))) :
    PyResult :=
  let m1 := if (ts.length : Int) ≠ m.numstates
            then { m with numstates := (ts.length : Int) } else m
  match firstInvalidEvent m ts with
  | some e => ⟨m1, [], some (.valueError (("Invalid event ") ++ e))⟩
  | none => ⟨{ m1 with transitions := ts.map some }, [], none⟩

/-- `StateModel.start()` (lines 145-150). -/
def start (m : StateModel) : StateModel × List Act :=
  ({ m with curState := 0, running := true },
   [Act.setCur 0, Act.callEntered 0 ("no_event")])

/-- `b.setHandler(None)` on a button. -/
def detachButton (b : ButtonAdapter) : ButtonAdapter :=
  { b with hasHandler := false }

/-- `t.setHandler(None); t.cancel()` on a timer. -/
def detachTimer (t : TimerAdapter) : TimerAdapter :=
  { t with hasHandler := false, pending := false }

/-- The adapter operations `stop` performs after the optional handler
call: clear every button handler, clear and cancel every timer, then set
`_curState = -1`. -/
def detachActs (m : StateModel) : List Act :=
  m.buttons.map (fun b => Act.clearButtonHandler b.name)
    ++ m.timers.flatMap
        (fun t => [Act.clearTimerHandler t.name, Act.cancelTimer t.name])
    ++ [Act.setCur (-1)]

/-- `StateModel.stop()` (lines 152-166): `stateLeft(_curState, "no_event")`
only if running, then always detach every button and timer and set
`_curState = -1`. -/
def stop (m : StateModel) : StateModel × List Act :=
  ({ m with running := false
            buttons := m.buttons.map detachButton
            timers := m.timers.map detachTimer
            curState := -1 },
   (if m.running then [Act.callLeft m.curState ("no_event")] else [])
     ++ detachActs m)

/-- `StateModel.addButton(btn)` (lines 233-244): compose the press and
release names; raise if either is registered, else append both, point the
button's handler at the engine and record the button. -/
def addButton (m : StateModel) (btnName : String) : StateModel × Option PyErr :=
  let e1 := btnName ++ ("_press")
  let e2 := btnName ++ ("_release")
  if e1 ∈ m.events ∨ e2 ∈ m.events then
    (m, some (.valueError (("There is already a button with the name ") ++ btnName)))
  else
    ({ m with events := m.events ++ [e1, e2]
              buttons := m.buttons ++ [⟨btnName, true⟩] }, none)

/-- `StateModel.addTimer(timer)` (lines 262-274). -/
def addTimer (m : StateModel) (t : TimerAdapter) : StateModel × Option PyErr :=
  let en := t.name ++ ("_timeout")
  if en ∈ m.events then
    (m, some (.valueError (("A timer with name ") ++ t.name ++ (" already exists"))))
  else
    ({ m with events := m.events ++ [en]
              timers := m.timers ++ [{ t with hasHandler := true }] }, none)

/-- `StateModel.addCustomEvent(event)` (lines 276-290). -/
def addCustomEvent (m : StateModel) (event : String) : StateModel × Option PyErr :=
  if event ∈ m.events then
    (m, some (.valueError (("An event with the name ") ++ event ++ (" already exists"))))
  else
    ({ m with events := m.events ++ [event] }, none)

/-- Is this action one of the three handler callbacks? -/
def isHandlerCall : Act → Bool
  | .callLeft _ _ => true
  | .callEntered _ _ => true
  | .callEvent _ _ => true
  | _ => false

end StateModelVerif

namespace StateModelVerif

instance : DecidableEq (Except PyErr Int) := fun a b =>
  match a, b with
  | .ok x, .ok y => decidable_of_iff (x = y) (by simp)
  | .ok _, .error _ => isFalse (by simp)
  | .error _, .ok _ => isFalse (by simp)
  | .error x, .error y => decidable_of_iff (x = y) (by simp)

/-- Resolution of a nonnegative in-range Python index. -/
theorem pyIdx_of_nonneg (len : Nat) (i : Int) (h1 : 0 ≤ i) (h2 : i < (len : Int)) :
    pyIdx len i = some i.toNat := by
  unfold pyIdx
  rw [if_pos h1, if_pos h2]

/-- Reading a nonnegative in-range Python index. -/
theorem pyGet_of_nonneg {α : Type} (l : List α) (i : Int) (h1 : 0 ≤ i)
    (h2 : i < (l.length : Int)) : pyGet l i = l.get? i.toNat := by
  unfold pyGet
  rw [pyIdx_of_nonneg l.length i h1 h2]

/-- Writing a nonnegative in-range Python index. -/
theorem pySet_of_nonneg {α : Type} (l : List α) (i : Int) (v : α) (h1 : 0 ≤ i)
    (h2 : i < (l.length : Int)) : pySet l i v = some (l.set i.toNat v) := by
  unfold pySet
  rw [pyIdx_of_nonneg l.length i h1 h2]

/-- Python `l[-1]` on a nonempty list is its last element. -/
theorem pyGet_neg_one {α : Type} (l : List α) (h : l ≠ []) :
    pyGet l (-1) = l.getLast? := by
  unfold pyGet pyIdx
  have hl : 0 < l.length := List.length_pos.mpr h
  have h0 : ¬ ((0:Int) ≤ -1) := by decide
  rw [if_neg h0]
  have h1 : (0:Int) ≤ -1 + (l.length : Int) := by omega
  rw [if_pos h1]
  have h2 : ((-1:Int) + (l.length : Int)).toNat = l.length - 1 := by omega
  rw [h2]
  dsimp only
  rw [List.getLast?_eq_getElem?, List.get?_eq_getElem?]

/-- The row scan of `getTransition` returns the destination of the first
matching entry, and the sentinel `-1` exactly when no entry matches. -/
theorem firstMatch_eq_find (row : List (String × Int)) (e : String) :
    firstMatch row e =
      ((row.find? (fun p => p.1 == e)).map (fun p => p.2)).getD (-1) := by
  induction row with
  | nil => rfl
  | cons p rest ih =>
    by_cases h : p.1 = e
    · simp [firstMatch, List.find?_cons, h]
    · simp [firstMatch, List.find?_cons, h, ih]

end StateModelVerif

namespace StateModelVerif

/-- C1: for every event name not present in the event registry,
`processEvent` raises a `ValueError` and leaves the model — current state,
mode, registry, table, adapters — completely unchanged, performing no
handler calls, whatever the current state or mode. -/
theorem processEvent_unregistered_rejects_without_mutation
    (m : StateModel) (e : String) (h : e ∉ m.events) :
    processEvent m e = ⟨m, [], some (.valueError (("Invalid event ") ++ e))⟩ := by
  unfold processEvent
  rw [if_neg h]

/-- C1 witness: a fresh two-state model rejects the unregistered event
`bogus` unchanged. -/
theorem processEvent_unregistered_rejects_without_mutation_witness :
    ("bogus") ∉ (initModel 2 false).events ∧
    processEvent (initModel 2 false) ("bogus") =
      ⟨initModel 2 false, [], some (.valueError (("Invalid event ") ++ ("bogus")))⟩ :=
  ⟨by decide,
   processEvent_unregistered_rejects_without_mutation (initModel 2 false) ("bogus")
     (by decide)⟩

/-- Running engine at state 0 with the temperature-controller table and
registry, debug disabled; state 0 has no transition on `temp_drop`. -/
def mC2false : StateModel :=
  { numstates := 4
    running := true
    transitions :=
      [some [(("fan1_on"), 1)],
       some [(("both_fans_on"), 2), (("temp_drop"), 0)],
       some [(("critical_temp"), 3), (("temp_drop"), 1)],
       some [(("temp_drop"), 2)]]
    curState := 0
    debug := false
    events := [("no_event"), ("fan1_on"), ("both_fans_on"),
               ("critical_temp"), ("temp_drop")]
    buttons := []
    timers := [] }

/-- The same engine with debug enabled. -/
def mC2true : StateModel := { mC2false with debug := true }

/-- Running two-state engine whose state 0 row is still the initializer
`None`, with a registered custom event `evx`. -/
def mC2none : StateModel :=
  { numstates := 2
    running := true
    transitions := [none, none]
    curState := 0
    debug := true
    events := [("no_event"), ("evx")]
    buttons := []
    timers := [] }

/-- C2 (code bug): at state 0, `temp_drop` has no transition, yet with
`debug=False` the engine performs no `stateEvent` call at all (the call
sits under `if self._debug:`), returning silently with the state
unchanged; with `debug=True` the call happens; and in a state whose row
was never populated the lookup raises `TypeError` instead of reaching the
in-state branch. -/
theorem processEvent_instate_stateEvent_skipped_without_debug :
    processEvent mC2false ("temp_drop") = ⟨mC2false, [], none⟩ ∧
    processEvent mC2true ("temp_drop") =
      ⟨mC2true, [Act.callEvent 0 ("temp_drop")], none⟩ ∧
    processEvent mC2none ("evx") = ⟨mC2none, [], some PyErr.typeError⟩ := by
  decide

/-- C3: every transition — a direct in-range `gotoState`, or `processEvent`
finding a table entry (any run whose trace mutates `_curState`) — performs
exactly `stateLeft(old, event)`, then the mutation of `_curState`, then
`stateEntered(new, event)`, in that order. -/
theorem transition_leave_mutate_enter_order (m : StateModel) (e : String) :
    (∀ t : Int, t < m.numstates →
      gotoState m t e =
        ({ m with curState := t },
         [Act.callLeft m.curState e, Act.setCur t, Act.callEntered t e])) ∧
    (∀ s : Int, Act.setCur s ∈ (processEvent m e).trace →
      (processEvent m e).trace =
        [Act.callLeft m.curState e, Act.setCur s, Act.callEntered s e] ∧
      (processEvent m e).model.curState = s) := by
  constructor
  · intro t ht
    unfold gotoState
    rw [if_pos ht]
  · intro s hs
    by_cases he : e ∈ m.events
    · cases hgt : getTransition m m.curState e with
      | error exc =>
        have hpe : processEvent m e = ⟨m, [], some exc⟩ := by
          unfold processEvent; rw [if_pos he, hgt]
        rw [hpe] at hs; simp at hs
      | ok n =>
        by_cases hn : (0:Int) ≤ n
        · by_cases hlt : n < m.numstates
          · have hpe : processEvent m e =
                ⟨{ m with curState := n },
                 [Act.callLeft m.curState e, Act.setCur n, Act.callEntered n e],
                 none⟩ := by
              unfold processEvent
              rw [if_pos he, hgt]
              dsimp only
              rw [if_pos hn]
              unfold gotoState
              rw [if_pos hlt]
            rw [hpe] at hs ⊢
            have hsn : s = n := by
              simp only [List.mem_cons, List.not_mem_nil, or_false] at hs
              rcases hs with h | h | h
              · cases h
              · exact (Act.setCur.injEq s n).mp h
              · cases h
            subst hsn
            exact ⟨rfl, rfl⟩
          · have hpe : processEvent m e = ⟨m, [], none⟩ := by
              unfold processEvent
              rw [if_pos he, hgt]
              dsimp only
              rw [if_pos hn]
              unfold gotoState
              rw [if_neg hlt]
            rw [hpe] at hs; simp at hs
        · have hpe : (processEvent m e).trace = [] ∨
              (processEvent m e).trace = [Act.callEvent m.curState e] := by
            unfold processEvent
            rw [if_pos he, hgt]
            dsimp only
            rw [if_neg hn]
            by_cases hd : m.debug = true
            · rw [if_pos hd]
              by_cases hne : e ≠ ("no_event")
              · rw [if_pos hne]; right; rfl
              · rw [if_neg hne]; left; rfl
            · rw [if_neg hd]; left; rfl
          rcases hpe with h | h <;> rw [h] at hs <;> simp at hs
    · have hpe : processEvent m e =
          ⟨m, [], some (.valueError (("Invalid event ") ++ e))⟩ := by
        unfold processEvent; rw [if_neg he]
      rw [hpe] at hs; simp at hs

/-- Running engine at state 0 with a single transition to state 1 on `go`. -/
def mC3run : StateModel :=
  { numstates := 2
    running := true
    transitions := [some [(("go"), 1)], none]
    curState := 0
    debug := false
    events := [("no_event"), ("go")]
    buttons := []
    timers := [] }

/-- C3 witness: the forced jump and the table-driven transition of `mC3run`
both produce the leave-mutate-enter sequence. -/
theorem transition_leave_mutate_enter_order_witness :
    gotoState mC3run 1 ("go") =
      ({ mC3run with curState := 1 },
       [Act.callLeft mC3run.curState ("go"), Act.setCur 1, Act.callEntered 1 ("go")]) ∧
    (processEvent mC3run ("go")).trace =
      [Act.callLeft mC3run.curState ("go"), Act.setCur 1, Act.callEntered 1 ("go")] ∧
    (processEvent mC3run ("go")).model.curState = 1 :=
  ⟨(transition_leave_mutate_enter_order mC3run ("go")).1 1 (by decide),
   ((transition_leave_mutate_enter_order mC3run ("go")).2 1 (by decide)).1,
   ((transition_leave_mutate_enter_order mC3run ("go")).2 1 (by decide)).2⟩

end StateModelVerif

namespace StateModelVerif

/-- C4 counterexample: in a fresh two-state model, state 0 holds no
transitions (its row is still the initializer `None`), yet the lookup for
the registered event `no_event` raises `TypeError` instead of returning
the `-1` sentinel, refuting the claim that an empty row always yields the
sentinel. -/
theorem getTransition_none_row_raises_typeError :
    getTransition (initModel 2 false) 0 ("no_event") = .error .typeError ∧
    getTransition (initModel 2 false) 0 ("no_event") ≠ .ok (-1) := by
  decide

/-- C4 amended: for every in-range state whose row has been populated
(a list, possibly empty), the lookup returns the destination of the first
entry whose event name equals the queried one, or the `-1` sentinel when
no entry matches; a state whose row is still the initializer `None` raises
`TypeError` instead; and repeated lookups on an unchanged table always
agree. -/
theorem getTransition_first_match_or_sentinel
    (m : StateModel) (s : Int) (e : String)
    (h0 : 0 ≤ s) (h1 : s < (m.transitions.length : Int)) :
    (∀ row : List (String × Int), m.transitions.get? s.toNat = some (some row) →
      getTransition m s e =
        .ok (((row.find? (fun p => p.1 == e)).map (fun p => p.2)).getD (-1))) ∧
    (m.transitions.get? s.toNat = some none →
      getTransition m s e = .error .typeError) ∧
    (∀ r1 r2 : Except PyErr Int,
      getTransition m s e = r1 → getTransition m s e = r2 → r1 = r2) := by
  refine ⟨?_, ?_, ?_⟩
  · intro row h2
    unfold getTransition
    rw [pyGet_of_nonneg m.transitions s h0 h1, h2]
    dsimp only
    rw [firstMatch_eq_find]
  · intro h2
    unfold getTransition
    rw [pyGet_of_nonneg m.transitions s h0 h1, h2]
  · intro r1 r2 hr1 hr2
    rw [← hr1, ← hr2]

/-- Model with one populated row (state 0) and one empty-list row (state 1). -/
def mC4w : StateModel :=
  { numstates := 2
    running := true
    transitions := [some [(("a"), 3), (("a"), 4)], some []]
    curState := 0
    debug := false
    events := [("no_event"), ("a")]
    buttons := []
    timers := [] }

/-- C4 witness: on `mC4w`, the lookup returns the first of the two `a`
entries of row 0, and the sentinel on the empty-list row 1. -/
theorem getTransition_first_match_or_sentinel_witness :
    (0:Int) ≤ 0 ∧ (0:Int) < (mC4w.transitions.length : Int) ∧
    getTransition mC4w 0 ("a") = .ok 3 ∧
    getTransition mC4w 1 ("a") = .ok (-1) :=
  ⟨by decide, by decide,
   (getTransition_first_match_or_sentinel mC4w 0 ("a") (by decide) (by decide)).1
     [(("a"), 3), (("a"), 4)] (by decide),
   (getTransition_first_match_or_sentinel mC4w 1 ("a") (by decide) (by decide)).1
     [] (by decide)⟩

/-- Running four-state engine at state 0 (same shape as the temperature
controller). -/
def mC5run : StateModel :=
  { numstates := 4
    running := true
    transitions :=
      [some [(("fan1_on"), 1)],
       some [(("both_fans_on"), 2), (("temp_drop"), 0)],
       some [(("critical_temp"), 3), (("temp_drop"), 1)],
       some [(("temp_drop"), 2)]]
    curState := 0
    debug := false
    events := [("no_event"), ("fan1_on"), ("both_fans_on"),
               ("critical_temp"), ("temp_drop")]
    buttons := []
    timers := [] }

/-- C5 (code bug): `gotoState` only tests `newState < numstates`, so a
target `7` on a 4-state engine is silently ignored — no error is raised
(the function cannot even signal one), no callback runs, the state stays —
while the negative target `-3`, equally outside `[0, numStates)`, is
accepted and performs a full transition with both callbacks. -/
theorem gotoState_out_of_range_not_rejected :
    gotoState mC5run 7 ("no_event") = (mC5run, []) ∧
    gotoState mC5run (-3) ("no_event") =
      ({ mC5run with curState := -3 },
       [Act.callLeft 0 ("no_event"), Act.setCur (-3),
        Act.callEntered (-3) ("no_event")]) := by
  decide

/-- C6 (code bug): handing a 2-state model a 1-row table raises nothing —
the call succeeds and `_numstates` is silently reassigned to 1; and when
the mismatched table also holds an unknown event name, the `ValueError`
from validation arrives only after `_numstates` has already been mutated. -/
theorem setTransitionTable_mismatch_resets_numstates :
    (setTransitionTable (initModel 2 false) [[(("no_event"), 0)]]).err = none ∧
    (setTransitionTable (initModel 2 false) [[(("no_event"), 0)]]).model.numstates = 1 ∧
    (setTransitionTable (initModel 2 false) [[(("bogus"), 0)]]).err
      = some (.valueError (("Invalid event ") ++ ("bogus"))) ∧
    (setTransitionTable (initModel 2 false) [[(("bogus"), 0)]]).model.numstates = 1 := by
  decide

end StateModelVerif

namespace StateModelVerif

/-- C7 counterexample: `addTransition(0, ["no_event", "bogus"], 1)` on a
fresh two-state model fails with `ValueError`, yet the entry
`("no_event", 1)` has already been appended to state 0's row — the table
is not as it was before the call. -/
theorem addTransition_partial_mutation_before_failure :
    (addTransition (initModel 2 false) 0 [("no_event"), ("bogus")] 1).err
      = some (.valueError (("Invalid event ") ++ ("bogus"))) ∧
    (addTransition (initModel 2 false) 0 [("no_event"), ("bogus")] 1).model.transitions
      = [some [(("no_event"), 1)], none] ∧
    (initModel 2 false).transitions = [none, none] := by
  decide

/-- C7 amended: when some name in the list is unregistered (and the source
state is a valid row index), the call fails with the `ValueError` of the
first unregistered name, but the table it leaves behind is the one
obtained by appending entries for exactly the registered names preceding
that first unregistered name — a successful prefix that errors raised by
the call do not roll back; in particular the table is unchanged only when
the first name already fails. -/
theorem addTransition_fails_keeping_leading_appends
    (s : Int) (t : Int) (evs : List String) (m : StateModel)
    (hs0 : 0 ≤ s) (hs1 : s < (m.transitions.length : Int))
    (e0 : String)
    (hfind : evs.find? (fun x => !(decide (x ∈ m.events))) = some e0) :
    (addTransition m s evs t).err = some (.valueError (("Invalid event ") ++ e0)) ∧
    (addTransition m s evs t).model =
      (addTransition m s (evs.takeWhile (fun x => decide (x ∈ m.events))) t).model ∧
    (addTransition m s (evs.takeWhile (fun x => decide (x ∈ m.events))) t).err = none := by
  induction evs generalizing m with
  | nil => cases hfind
  | cons e rest ih =>
    by_cases he : e ∈ m.events
    · have hde : decide (e ∈ m.events) = true := decide_eq_true he
      have hfr : rest.find? (fun x => !(decide (x ∈ m.events))) = some e0 := by
        rw [List.find?_cons] at hfind
        simp only [hde, Bool.not_true] at hfind
        exact hfind
      have hlt : s.toNat < m.transitions.length := by omega
      have hget : pyGet m.transitions s = some (m.transitions.get ⟨s.toNat, hlt⟩) := by
        rw [pyGet_of_nonneg m.transitions s hs0 hs1]
        exact List.get?_eq_get hlt
      set row0 := m.transitions.get ⟨s.toNat, hlt⟩ with hrow0
      set ts2 := m.transitions.set s.toNat (some (row0.getD [] ++ [(e, t)])) with hts2
      have hset : pySet m.transitions s (some (row0.getD [] ++ [(e, t)])) = some ts2 := by
        rw [pySet_of_nonneg m.transitions s (some (row0.getD [] ++ [(e, t)])) hs0 hs1]
      have hstep : ∀ evs2 : List String,
          addTransition m s (e :: evs2) t
            = addTransition { m with transitions := ts2 } s evs2 t := by
        intro evs2
        rw [addTransition]
        rw [if_pos he, hget]
        dsimp only
        rw [hset]
      have hlen2 : s < (({ m with transitions := ts2 } : StateModel).transitions.length : Int) := by
        show s < ((ts2.length : Nat) : Int)
        rw [hts2, List.length_set]
        exact hs1
      have hfr2 : rest.find?
          (fun x => !(decide (x ∈ ({ m with transitions := ts2 } : StateModel).events)))
            = some e0 := hfr
      have hrec := ih { m with transitions := ts2 } hlen2 hfr2
      have htw : (e :: rest).takeWhile (fun x => decide (x ∈ m.events))
          = e :: rest.takeWhile (fun x => decide (x ∈ m.events)) := by
        rw [List.takeWhile_cons]
        simp [hde]
      rw [htw, hstep rest, hstep (rest.takeWhile (fun x => decide (x ∈ m.events)))]
      exact hrec
    · have hde : decide (e ∈ m.events) = false := decide_eq_false he
      have he0 : e0 = e := by
        rw [List.find?_cons] at hfind
        simp only [hde, Bool.not_false] at hfind
        cases hfind
        rfl
      have htw : (e :: rest).takeWhile (fun x => decide (x ∈ m.events)) = [] := by
        rw [List.takeWhile_cons]
        simp [hde]
      have hstep : addTransition m s (e :: rest) t
          = ⟨m, [], some (.valueError (("Invalid event ") ++ e))⟩ := by
        rw [addTransition]
        rw [if_neg he]
      rw [htw, hstep, he0]
      exact ⟨rfl, rfl, rfl⟩

/-- C7 witness: on a fresh two-state model, `["no_event", "zzz"]` fails at
`zzz` and the surviving table equals the one built from the registered
prefix `["no_event"]` alone. -/
theorem addTransition_fails_keeping_leading_appends_witness :
    ([("no_event"), ("zzz")].find?
      (fun x => !(decide (x ∈ (initModel 2 false).events))) = some ("zzz")) ∧
    (addTransition (initModel 2 false) 0 [("no_event"), ("zzz")] 1).err
      = some (.valueError (("Invalid event ") ++ ("zzz"))) ∧
    (addTransition (initModel 2 false) 0 [("no_event"), ("zzz")] 1).model
      = (addTransition (initModel 2 false) 0
          ([("no_event"), ("zzz")].takeWhile
            (fun x => decide (x ∈ (initModel 2 false).events))) 1).model :=
  ⟨by decide,
   (addTransition_fails_keeping_leading_appends 0 1 [("no_event"), ("zzz")]
     (initModel 2 false) (by decide) (by decide) ("zzz") (by decide)).1,
   (addTransition_fails_keeping_leading_appends 0 1 [("no_event"), ("zzz")]
     (initModel 2 false) (by decide) (by decide) ("zzz") (by decide)).2.1⟩

end StateModelVerif

namespace StateModelVerif

/-- Composed button press and release names are always distinct. -/
theorem press_ne_release (n : String) : n ++ ("_press") ≠ n ++ ("_release") := by
  intro h
  have h2 := congrArg String.length h
  rw [String.length_append, String.length_append] at h2
  rw [show (("_press") : String).length = 6 from rfl,
      show (("_release") : String).length = 8 from rfl] at h2
  omega

/-- C8: the registry starts duplicate-free; each registration operation —
`addButton` with its composed press/release names, `addTimer` with its
timeout name, `addCustomEvent` — fails with a `ValueError` and returns the
model with registry size and contents exactly as before whenever a
composed name already exists, and every operation preserves the
uniqueness of registered names. -/
theorem registry_unique_and_duplicate_add_rejected
    (m : StateModel) (bname ev : String) (t : TimerAdapter) (n : Nat) (d : Bool) :
    (initModel n d).events.Nodup ∧
    ((bname ++ ("_press") ∈ m.events ∨ bname ++ ("_release") ∈ m.events) →
      addButton m bname =
        (m, some (.valueError (("There is already a button with the name ") ++ bname)))) ∧
    (t.name ++ ("_timeout") ∈ m.events →
      addTimer m t =
        (m, some (.valueError (("A timer with name ") ++ t.name ++ (" already exists"))))) ∧
    (ev ∈ m.events →
      addCustomEvent m ev =
        (m, some (.valueError (("An event with the name ") ++ ev ++ (" already exists"))))) ∧
    (m.events.Nodup →
      (addButton m bname).1.events.Nodup ∧ (addTimer m t).1.events.Nodup ∧
      (addCustomEvent m ev).1.events.Nodup) := by
  refine ⟨?_, ?_, ?_, ?_, ?_⟩
  · simp [initModel]
  · intro h
    unfold addButton
    rw [if_pos h]
  · intro h
    unfold addTimer
    rw [if_pos h]
  · intro h
    unfold addCustomEvent
    rw [if_pos h]
  · intro hnd
    refine ⟨?_, ?_, ?_⟩
    · unfold addButton
      by_cases h : bname ++ ("_press") ∈ m.events ∨ bname ++ ("_release") ∈ m.events
      · rw [if_pos h]
        exact hnd
      · rw [if_neg h]
        push_neg at h
        refine List.Nodup.append hnd ?_ ?_
        · simp [press_ne_release bname]
        · intro a ha hb
          simp only [List.mem_cons, List.mem_singleton, List.not_mem_nil, or_false] at hb
          rcases hb with rfl | rfl
          · exact h.1 ha
          · exact h.2 ha
    · unfold addTimer
      by_cases h : t.name ++ ("_timeout") ∈ m.events
      · rw [if_pos h]
        exact hnd
      · rw [if_neg h]
        refine List.Nodup.append hnd (by simp) ?_
        intro a ha hb
        simp only [List.mem_singleton] at hb
        subst hb
        exact h ha
    · unfold addCustomEvent
      by_cases h : ev ∈ m.events
      · rw [if_pos h]
        exact hnd
      · rw [if_neg h]
        refine List.Nodup.append hnd (by simp) ?_
        intro a ha hb
        simp only [List.mem_singleton] at hb
        subst hb
        exact h ha

/-- Model whose registry already holds `b1_press`, `t1_timeout` and the
custom name `evc`. -/
def mC8 : StateModel :=
  { numstates := 2
    running := false
    transitions := [none, none]
    curState := -1
    debug := false
    events := [("no_event"), ("b1_press"), ("t1_timeout"), ("evc")]
    buttons := []
    timers := [] }

/-- C8 witness: on `mC8` a colliding button, timer and custom event are
each rejected with the registry untouched, and a non-colliding button keeps
the registry duplicate-free. -/
theorem registry_unique_and_duplicate_add_rejected_witness :
    (initModel 3 true).events.Nodup ∧
    addButton mC8 ("b1") =
      (mC8, some (.valueError (("There is already a button with the name ") ++ ("b1")))) ∧
    addTimer mC8 ⟨("t1"), false, false⟩ =
      (mC8, some (.valueError (("A timer with name ") ++ ("t1") ++ (" already exists")))) ∧
    addCustomEvent mC8 ("evc") =
      (mC8, some (.valueError (("An event with the name ") ++ ("evc") ++ (" already exists")))) ∧
    (addButton mC8 ("b2")).1.events.Nodup :=
  ⟨(registry_unique_and_duplicate_add_rejected mC8 ("b1") ("evc")
      ⟨("t1"), false, false⟩ 3 true).1,
   (registry_unique_and_duplicate_add_rejected mC8 ("b1") ("evc")
      ⟨("t1"), false, false⟩ 3 true).2.1 (by decide),
   (registry_unique_and_duplicate_add_rejected mC8 ("b1") ("evc")
      ⟨("t1"), false, false⟩ 3 true).2.2.1 (by decide),
   (registry_unique_and_duplicate_add_rejected mC8 ("b1") ("evc")
      ⟨("t1"), false, false⟩ 3 true).2.2.2.1 (by decide),
   ((registry_unique_and_duplicate_add_rejected mC8 ("b2") ("evc")
      ⟨("t1"), false, false⟩ 3 true).2.2.2.2 (by decide)).1⟩

end StateModelVerif

namespace StateModelVerif

/-- Detaching a button trace entry is never a handler call. -/
theorem filter_clearButtons (bs : List ButtonAdapter) :
    (bs.map (fun b => Act.clearButtonHandler b.name)).filter isHandlerCall = [] := by
  induction bs with
  | nil => rfl
  | cons b rest ih => simp [List.filter_cons, isHandlerCall, ih]

/-- Detaching and cancelling timer trace entries are never handler calls. -/
theorem filter_clearTimers (ts : List TimerAdapter) :
    (ts.flatMap (fun t => [Act.clearTimerHandler t.name, Act.cancelTimer t.name])).filter
      isHandlerCall = [] := by
  induction ts with
  | nil => rfl
  | cons a rest ih =>
    simp [List.flatMap_cons, List.filter_append, List.filter_cons, isHandlerCall, ih]

/-- The detachment part of `stop` contains no handler call. -/
theorem filter_detachActs (m : StateModel) :
    (detachActs m).filter isHandlerCall = [] := by
  unfold detachActs
  rw [List.filter_append, List.filter_append, filter_clearButtons, filter_clearTimers]
  rfl

/-- C9: stopping a running engine performs `stateLeft(curState, "no_event")`
first and as the only handler call, then detaches every button (handler
cleared) and every timer (handler cleared, pending expiration cancelled)
and sets the stopped sentinel `-1`; a second `stop` repeats exactly the
detachment, with no handler call at all. -/
theorem stop_detaches_with_single_stateLeft (m : StateModel) (h : m.running = true) :
    stop m =
      ({ m with running := false, curState := -1,
                buttons := m.buttons.map detachButton,
                timers := m.timers.map detachTimer },
       Act.callLeft m.curState ("no_event") :: detachActs m) ∧
    (stop m).2.filter isHandlerCall = [Act.callLeft m.curState ("no_event")] ∧
    (∀ b ∈ (stop m).1.buttons, b.hasHandler = false) ∧
    (∀ tm ∈ (stop m).1.timers, tm.hasHandler = false ∧ tm.pending = false) ∧
    (stop (stop m).1).1 = (stop m).1 ∧
    (stop (stop m).1).2 = detachActs (stop m).1 ∧
    (stop (stop m).1).2.filter isHandlerCall = [] := by
  have h1 : stop m =
      ({ m with running := false, curState := -1,
                buttons := m.buttons.map detachButton,
                timers := m.timers.map detachTimer },
       Act.callLeft m.curState ("no_event") :: detachActs m) := by
    unfold stop
    rw [h]
    rfl
  have hbmap : (m.buttons.map detachButton).map detachButton
      = m.buttons.map detachButton := by
    rw [List.map_map]
    congr 1
  have htmap : (m.timers.map detachTimer).map detachTimer
      = m.timers.map detachTimer := by
    rw [List.map_map]
    congr 1
  have h2 : stop (stop m).1 = ((stop m).1, detachActs (stop m).1) := by
    rw [h1]
    unfold stop
    dsimp only
    rw [hbmap, htmap]
    simp
  refine ⟨h1, ?_, ?_, ?_, ?_, ?_, ?_⟩
  · rw [h1]
    dsimp only
    rw [List.filter_cons]
    simp only [isHandlerCall, if_pos]
    rw [filter_detachActs]
  · rw [h1]
    intro b hb
    dsimp only at hb
    rcases List.mem_map.mp hb with ⟨a, _, rfl⟩
    rfl
  · rw [h1]
    intro tm htm
    dsimp only at htm
    rcases List.mem_map.mp htm with ⟨a, _, rfl⟩
    exact ⟨rfl, rfl⟩
  · rw [h2]
  · rw [h2]
  · rw [h2]
    exact filter_detachActs (stop m).1

/-- Running engine at state 1 with one attached button and one attached
timer with a pending expiration. -/
def mC9run : StateModel :=
  { numstates := 2
    running := true
    transitions := [some [(("go"), 1)], none]
    curState := 1
    debug := false
    events := [("no_event"), ("go"), ("b1_press"), ("b1_release"), ("t1_timeout")]
    buttons := [⟨("b1"), true⟩]
    timers := [⟨("t1"), true, true⟩]
    }

/-- C9 witness: stopping `mC9run` makes exactly one `stateLeft(1, no_event)`
call, and stopping again makes none. -/
theorem stop_detaches_with_single_stateLeft_witness :
    mC9run.running = true ∧
    (stop mC9run).2.filter isHandlerCall = [Act.callLeft mC9run.curState ("no_event")] ∧
    (∀ b ∈ (stop mC9run).1.buttons, b.hasHandler = false) ∧
    (∀ tm ∈ (stop mC9run).1.timers, tm.hasHandler = false ∧ tm.pending = false) ∧
    (stop (stop mC9run).1).2.filter isHandlerCall = [] :=
  ⟨rfl,
   (stop_detaches_with_single_stateLeft mC9run rfl).2.1,
   (stop_detaches_with_single_stateLeft mC9run rfl).2.2.1,
   (stop_detaches_with_single_stateLeft mC9run rfl).2.2.2.1,
   (stop_detaches_with_single_stateLeft mC9run rfl).2.2.2.2.2.2⟩

/-- Stopped engine (`curState = -1`) with the temperature-controller table:
the last row (state 3) maps `temp_drop` to state 2. -/
def mC10stopped : StateModel :=
  { numstates := 4
    running := false
    transitions :=
      [some [(("fan1_on"), 1)],
       some [(("both_fans_on"), 2), (("temp_drop"), 0)],
       some [(("critical_temp"), 3), (("temp_drop"), 1)],
       some [(("temp_drop"), 2)]]
    curState := -1
    debug := false
    events := [("no_event"), ("fan1_on"), ("both_fans_on"),
               ("critical_temp"), ("temp_drop")]
    buttons := []
    timers := [] }

/-- C10: on a stopped engine (`curState = -1`, not running) `processEvent`
is not rejected — the lookup indexes the table at `-1`, Python selects the
last row (state `numStates - 1` when the table has one row per state), and
when that row maps the event to an in-range target the engine runs the
full transition: `stateLeft(-1, event)`, mutation to the target,
`stateEntered(target, event)`, with no error. -/
theorem processEvent_on_stopped_uses_last_row
    (m : StateModel) (row : List (String × Int)) (t : Int) (e : String)
    (hrun : m.running = false) (hcur : m.curState = -1)
    (hne : m.transitions ≠ [])
    (hlen : (m.transitions.length : Int) = m.numstates)
    (hlast : m.transitions.getLast? = some (some row))
    (he : e ∈ m.events)
    (hfm : firstMatch row e = t)
    (ht0 : 0 ≤ t) (ht1 : t < m.numstates) :
    processEvent m e =
      ⟨{ m with curState := t },
       [Act.callLeft (-1) e, Act.setCur t, Act.callEntered t e], none⟩ := by
  have hgt : getTransition m m.curState e = .ok t := by
    unfold getTransition
    rw [hcur, pyGet_neg_one m.transitions hne, hlast]
    dsimp only
    rw [hfm]
  unfold processEvent
  rw [if_pos he, hgt]
  dsimp only
  rw [if_pos ht0]
  unfold gotoState
  rw [if_pos ht1, hcur]

/-- C10 witness: the stopped engine `mC10stopped` accepts `temp_drop`,
transitions to state 2 via the last row, and calls `stateLeft(-1, _)` then
`stateEntered(2, _)`. -/
theorem processEvent_on_stopped_uses_last_row_witness :
    mC10stopped.running = false ∧ mC10stopped.curState = -1 ∧
    processEvent mC10stopped ("temp_drop") =
      ⟨{ mC10stopped with curState := 2 },
       [Act.callLeft (-1) ("temp_drop"), Act.setCur 2,
        Act.callEntered 2 ("temp_drop")], none⟩ :=
  ⟨rfl, rfl,
   processEvent_on_stopped_uses_last_row mC10stopped [(("temp_drop"), 2)] 2
     ("temp_drop") rfl rfl (by decide) (by decide) (by decide) (by decide)
     (by decide) (by decide) (by decide)⟩

end StateModelVerif
